import Mathlib

/-!
Shallow embedding of `src/code/utils.py` from the disk2qcow2 repository.

Pure functions of the source (`validate_vm_name`, `get_base_disk`, the lsblk
output parser) are translated directly.  Effectful functions are translated to
functions over explicit environment parameters describing the outcomes of the
external effects (process exit codes, sampled cancellation-flag values at poll
ticks, free-space query results, pre-existing files), and they return explicit
result values recording the outcome, the final file-system state for the files
the function manipulates, the progress events it emits, and the process-control
actions it performs.

Python `str` values are modelled as Lean `String`/`List Char`; Python `int` as
`Int`/`Nat`; Python `float` arithmetic in `check_output_space` is modelled with
exact rationals (`ℚ`) and truncation toward zero, mirroring Python's `int()`.
-/

namespace Disk2qcow2

/-- Characters stripped by Python `str.strip` (the ASCII whitespace subset;
Unicode whitespace beyond ASCII is not modelled). -/
def pyWhitespace (c : Char) : Bool :=
  c == ' ' || c == '\t' || c == '\n' || c == '\r' || c == '\x0b' || c == '\x0c'

/-- Python `str.strip()` on a character list. -/
def pyStripChars (s : List Char) : List Char :=
  ((s.dropWhile pyWhitespace).reverse.dropWhile pyWhitespace).reverse

/-- Python `str.strip()` on a `String`. -/
def pyStripStr (s : String) : String :=
  String.mk (pyStripChars s.data)

/-- Python `str.lower()` on a `String` (ASCII case mapping; no reserved name
or invalid character involves a non-ASCII case pair). -/
def pyLowerStr (s : String) : String :=
  String.mk (s.data.map Char.toLower)

/-! ### `validate_vm_name` (utils.py lines 366-386) -/

/-- The invalid-character list `'<>:"/\\|?*'` iterated by `validate_vm_name`,
in source order. -/
def invalid_chars : List Char :=
  ['<', '>', ':', '"', '/', '\\', '|', '?', '*']

/-- The reserved-name list of `validate_vm_name`, in source order. -/
def reserved_names : List String :=
  ["con", "prn", "aux", "nul",
   "com1", "com2", "com3", "com4", "com5", "com6", "com7", "com8", "com9",
   "lpt1", "lpt2", "lpt3", "lpt4", "lpt5", "lpt6", "lpt7", "lpt8", "lpt9"]

/-- ASCII apostrophe, used by the reserved-name message. -/
def apos : Char := Char.ofNat 39

def msgEmpty : String := "VM name cannot be empty"

/-- Message `f"VM name contains invalid character: {char}"`. -/
def msgInvalidChar (c : Char) : String :=
  String.push "VM name contains invalid character: " c

def msgTooLong : String := "VM name is too long (max 100 characters)"

/-- Message `f"VM name '{name}' is reserved"`. -/
def msgReserved (name : String) : String :=
  "VM name " ++ apos.toString ++ name ++ apos.toString ++ " is reserved"

/-- Translation of `validate_vm_name`: empty check, then the first member of
`invalid_chars` occurring in the name, then the length check, then the
case-insensitive reserved-name check. -/
def validate_vm_name (name : String) : Bool × String :=
  if name = "" then (false, msgEmpty)
  else
    match invalid_chars.find? (fun c => name.data.contains c) with
    | some c => (false, msgInvalidChar c)
    | none =>
      if name.length > 100 then (false, msgTooLong)
      else if reserved_names.contains (pyLowerStr name) then (false, msgReserved name)
      else (true, "Valid name")

/-! ### `get_base_disk` (utils.py lines 424-449) -/

/-- `re.match(r'(nvme\d+n\d+)', s)`: an anchored match of `nvme`, one or more
digits, `n`, one or more digits, returning the matched prefix.  The digit
class is modelled as ASCII `0-9`. -/
def nvmeMatch? : List Char → Option (List Char)
  | 'n' :: 'v' :: 'm' :: 'e' :: rest =>
    let d1 := rest.takeWhile Char.isDigit
    let r1 := rest.dropWhile Char.isDigit
    if d1 = [] then none
    else
      match r1 with
      | 'n' :: r2 =>
        let d2 := r2.takeWhile Char.isDigit
        if d2 = [] then none
        else some ('n' :: 'v' :: 'm' :: 'e' :: (d1 ++ 'n' :: d2))
      | _ => none
  | _ => none

/-- `re.match(r'([a-zA-Z/]+[a-zA-Z])', s)`: the longest prefix drawn from
`[a-zA-Z/]`, backtracked so that the last matched character is a letter
(i.e. trailing slashes dropped), succeeding only with total length at least
two. -/
def tradMatch? (s : List Char) : Option (List Char) :=
  let run := s.takeWhile (fun c => c.isAlpha || c == '/')
  let p := (run.reverse.dropWhile (fun c => c == '/')).reverse
  if 2 ≤ p.length then some p else none

/-- Prefix test on character lists (helper for the substring test below). -/
def leadsWith : List Char → List Char → Bool
  | [], _ => true
  | _ :: _, [] => false
  | a :: as, b :: bs => a == b && leadsWith as bs

/-- Python substring containment `needle in hay`. -/
def hasSub (needle : List Char) : List Char → Bool
  | [] => leadsWith needle []
  | c :: rest => leadsWith needle (c :: rest) || hasSub needle rest

/-- The traditional-device branch of `get_base_disk` together with the final
fallback that returns the input unchanged. -/
def tradFallback (device_name : String) : String :=
  match tradMatch? device_name.data with
  | some p => String.mk p
  | none => device_name

/-- Translation of `get_base_disk`: when the name contains `nvme` try the NVMe
pattern and return its group on success; otherwise (including an NVMe substring
with no NVMe pattern match) fall through to the traditional pattern, and if
that also fails return the name unchanged. -/
def get_base_disk (device_name : String) : String :=
  if hasSub "nvme".data device_name.data then
    match nvmeMatch? device_name.data with
    | some m => String.mk m
    | none => tradFallback device_name
  else tradFallback device_name

/-! ### `get_directory_space` and `check_output_space` (utils.py lines 135-183)

`get_directory_space` queries `shutil.disk_usage`; the query outcome is an
explicit parameter (`queryOk` with the reported totals).  On `OSError` the
source logs and returns all-zero figures.  `check_output_space` creates the
output directory (`os.makedirs`, whose success is the `mkdirOk` parameter; on
failure the wrapping `except Exception` returns `False`), then compares free
space against `int(int(source_disk_size * compression_ratio) * 1.1)`.  Python
float arithmetic is modelled with exact rationals, and Python `int()` with
truncation toward zero.  The human-readable message (built with float
formatting in `format_bytes`) is display-only and is not modelled. -/

/-- Result dictionary of `get_directory_space`. -/
structure SpaceInfo where
  total : Nat
  used : Nat
  free : Nat
deriving DecidableEq

/-- Translation of `get_directory_space`: the `shutil.disk_usage` figures on
success, all zeros when the query raises `OSError`. -/
def get_directory_space (queryOk : Bool) (total free : Nat) : SpaceInfo :=
  if queryOk then { total := total, used := total - free, free := free }
  else { total := 0, used := 0, free := 0 }

/-- Python `int()` applied to a rational value: truncation toward zero. -/
def truncInt (q : ℚ) : ℤ :=
  if 0 ≤ q then ⌊q⌋ else ⌈q⌉

/-- `estimated_vm_size = int(source_disk_size * compression_ratio)`. -/
def estimated_vm_size (source_disk_size : Nat) (compression_ratio : ℚ) : ℤ :=
  truncInt ((source_disk_size : ℚ) * compression_ratio)

/-- `required_space = int(estimated_vm_size * 1.1)` (the 10% safety margin). -/
def required_space (source_disk_size : Nat) (compression_ratio : ℚ) : ℤ :=
  truncInt ((estimated_vm_size source_disk_size compression_ratio : ℚ) * (11 / 10))

/-- Translation of `check_output_space`, returning the `has_enough_space`
boolean: `space_info['free'] >= required_space` on the normal path, `False`
when directory creation raises. -/
def check_output_space (mkdirOk : Bool) (queryOk : Bool) (total free : Nat)
    (source_disk_size : Nat) (compression_ratio : ℚ) : Bool :=
  if mkdirOk then
    decide (required_space source_disk_size compression_ratio ≤
      ((get_directory_space queryOk total free).free : ℤ))
  else false

/-! ### `run_command` and `get_disk_list` (utils.py lines 10-29 and 72-125) -/

/-- Outcome of one `subprocess.run` invocation, as seen by `run_command`. -/
inductive CmdOutcome where
  | notFound
  | callFailed (code : Int)
  | interrupted
  | succeeded (out : String)
deriving DecidableEq

/-- Result of `run_command`: a returned string, a `sys.exit` terminating the
process (`SystemExit` propagates through every `except` clause of the
callers), or a re-raised exception when `raise_on_error` is false. -/
inductive RunCmdResult where
  | ok (out : String)
  | exited (code : Nat)
  | raisedNotFound
  | raisedCallFailed (code : Int)
deriving DecidableEq

/-- Translation of `run_command`: returns stripped stdout on success; on
`FileNotFoundError` exits with code 2 (or re-raises), on
`CalledProcessError` exits with code 1 (or re-raises), on
`KeyboardInterrupt` exits with code 130. -/
def run_command (outcome : CmdOutcome) (raise_on_error : Bool) : RunCmdResult :=
  match outcome with
  | CmdOutcome.succeeded out => RunCmdResult.ok (pyStripStr out)
  | CmdOutcome.notFound =>
    if raise_on_error then RunCmdResult.exited 2 else RunCmdResult.raisedNotFound
  | CmdOutcome.callFailed code =>
    if raise_on_error then RunCmdResult.exited 1 else RunCmdResult.raisedCallFailed code
  | CmdOutcome.interrupted => RunCmdResult.exited 130

/-- Python `str.split('\n')`: split at every newline, keeping empty pieces. -/
def splitOnNl : List Char → List (List Char)
  | [] => [[]]
  | c :: rest =>
    if c = '\n' then [] :: splitOnNl rest
    else
      match splitOnNl rest with
      | [] => [[c]]
      | l :: ls => (c :: l) :: ls

/-- Python `str.split(maxsplit=n)`: whitespace-delimited tokens; once `n`
splits have been made the remainder (leading whitespace stripped) is the last
token.  Recursion is on the split budget. -/
def pySplitMax (s : List Char) (maxsplit : Nat) : List (List Char) :=
  let s' := s.dropWhile pyWhitespace
  match s' with
  | [] => []
  | _ :: _ =>
    match maxsplit with
    | 0 => [s']
    | m + 1 =>
      let tok := s'.takeWhile (fun c => !pyWhitespace c)
      let rest := s'.dropWhile (fun c => !pyWhitespace c)
      tok :: pySplitMax rest m

/-- Value of a nonempty all-digit string, or `none` (`ValueError`). -/
def digitsToNat? (ds : List Char) : Option Nat :=
  match ds with
  | [] => none
  | _ :: _ =>
    if ds.all Char.isDigit then
      some (ds.foldl (fun a c => a * 10 + (c.toNat - 48)) 0)
    else none

/-- Python `int(str)`: optional surrounding whitespace, optional sign, decimal
digits; anything else raises `ValueError` (`none`).  Digit-group underscores
and non-ASCII digits are not modelled (never produced by `lsblk -b`). -/
def pyInt? (s : List Char) : Option Int :=
  match pyStripChars s with
  | '-' :: ds => (digitsToNat? ds).map (fun n => -(n : Int))
  | '+' :: ds => (digitsToNat? ds).map (fun n => (n : Int))
  | ds => (digitsToNat? ds).map (fun n => (n : Int))

/-- One entry of the list built by `get_disk_list`.  The `size` field of the
source dictionary is `format_bytes(size_bytes)`, a float-formatted display
string derived from `size_bytes`; it is not modelled. -/
structure DiskEntry where
  device : String
  size_bytes : Int
  model : String
deriving DecidableEq

/-- One iteration of the parsing loop of `get_disk_list`: `none` models a
`ValueError` escaping to the function-level handler, `some none` a skipped
line (blank, or fewer than two columns), `some (some d)` an appended entry. -/
def parseDiskLine (line : List Char) : Option (Option DiskEntry) :=
  let stripped := pyStripChars line
  match stripped with
  | [] => some none
  | _ :: _ =>
    match pySplitMax stripped 3 with
    | p0 :: p1 :: restParts =>
      match pyInt? p1 with
      | none => none
      | some sz =>
        let model :=
          match restParts with
          | [_, m] => m
          | _ => "Unknown".data
        some (some { device := String.mk ("/dev/".data ++ p0),
                     size_bytes := sz,
                     model := String.mk model })
    | _ => some none

/-- The whole parsing loop: `none` models a `ValueError` aborting the loop. -/
def parseDiskLines : List (List Char) → Option (List DiskEntry)
  | [] => some []
  | l :: ls =>
    match parseDiskLine l with
    | none => none
    | some none => parseDiskLines ls
    | some (some d) => (parseDiskLines ls).map (fun t => d :: t)

/-- `output.strip().split('\n')` followed by the parsing loop. -/
def parseDisks (output : String) : Option (List DiskEntry) :=
  parseDiskLines (splitOnNl (pyStripChars output.data))

/-- Observable result of `get_disk_list`: a returned list, or process
termination through the `sys.exit` inside `run_command` (which no `except`
clause of `get_disk_list` intercepts, `SystemExit` not being an `Exception`).
-/
inductive DisksResult where
  | disks (l : List DiskEntry)
  | exited (code : Nat)
deriving DecidableEq

/-- Translation of `get_disk_list`, over the outcomes of its (up to) two
`run_command` invocations.  The `raisedNotFound` and `raisedCallFailed` arms
translate the function's own `except FileNotFoundError` and
`except CalledProcessError` handlers; both are unreachable here because
`run_command` is invoked with `raise_on_error = True`.  A `none` from the
parser translates the `except (IndexError, ValueError)` handler. -/
def get_disk_list (o1 o2 : CmdOutcome) : DisksResult :=
  match run_command o1 true with
  | RunCmdResult.exited c => DisksResult.exited c
  | RunCmdResult.raisedNotFound => DisksResult.disks []
  | RunCmdResult.raisedCallFailed _ => DisksResult.disks []
  | RunCmdResult.ok out1 =>
    if out1 = "" then
      match run_command o2 true with
      | RunCmdResult.exited c => DisksResult.exited c
      | RunCmdResult.raisedNotFound => DisksResult.disks []
      | RunCmdResult.raisedCallFailed _ => DisksResult.disks []
      | RunCmdResult.ok out2 =>
        if out2 = "" then DisksResult.disks []
        else
          match parseDisks out2 with
          | none => DisksResult.disks []
          | some l => DisksResult.disks l
    else
      match parseDisks out1 with
      | none => DisksResult.disks []
      | some l => DisksResult.disks l

/-! ### `run_command_with_progress` (utils.py lines 31-70) and
`create_vm_from_disk` (utils.py lines 200-335)

Both functions supervise an external process with a poll loop.  The loop is
modelled by the list of values the cancellation flag is observed to have at
the poll ticks that occur while the process is alive (once a `true` is
observed the process is terminated, so later entries never arise; an
exhausted list means the process exited).  The process's eventual exit code
and the bytes it wrote are environment parameters.  Launch failures of the
external binaries (`FileNotFoundError` from `Popen`) create no files and are
outside the stage outcomes modelled here.

`create_vm_from_disk` manipulates exactly two paths,
`{output_path}/{vm_name}_temp.img` and `{output_path}/{vm_name}.qcow2`; the
`FS` record tracks their existence (the final file with its byte size, since
verification reads `os.path.getsize`).  `dd` opens its `of=` target as soon
as it runs, so the temp file exists once the duplication stage starts.
`qemu-img convert` creates/truncates its output when it gets far enough to
open it; `qemuWrites = some k` means the final path holds `k` bytes after the
re-encode stage ends, `none` that `qemu-img` never created it (in which case
a pre-existing file at that path is untouched).  The `os.makedirs` call and
the unused `get_disk_info` lookup are assumed not to raise.  Progress events
record every `(percentage, status)` pair the callback would receive; actions
record process control and file removals in order. -/

/-- Process-control and file-system actions performed by the monitors. -/
inductive Action where
  | terminate
  | wait
  | rmTemp
  | rmFinal
  | progressTick
deriving DecidableEq

/-- Result of `run_command_with_progress`: stripped stdout, a raised
`CalledProcessError`, or the `KeyboardInterrupt` raised on cancellation. -/
inductive RunResult where
  | ok (out : String)
  | failed (code : Int)
  | cancelled
deriving DecidableEq

/-- Translation of `run_command_with_progress` over the sampled stop-flag
values, the exit code, and the process output.  On a `true` sample the
process is terminated and awaited and `KeyboardInterrupt` is raised; on each
`false` sample the (argument-less) progress callback runs. -/
def run_command_with_progress : List Bool → Int → String → RunResult × List Action
  | [], exitCode, out =>
    (if exitCode ≠ 0 then RunResult.failed exitCode else RunResult.ok (pyStripStr out), [])
  | s :: rest, exitCode, out =>
    if s then (RunResult.cancelled, [Action.terminate, Action.wait])
    else
      let r := run_command_with_progress rest exitCode out
      (r.1, Action.progressTick :: r.2)

/-- Number of `false` poll samples before the first `true` one (`some n`), or
`none` when the flag is never observed true and the loop ends normally. -/
def pollLoop : List Bool → Option Nat
  | [] => none
  | s :: rest => if s then some 0 else (pollLoop rest).map (fun n => n + 1)

/-- `os.path.join` for the path shapes used here (POSIX, two components). -/
def pyJoin (a b : String) : String :=
  if b.data.take 1 = ['/'] then b
  else if a = "" || a.data.getLast? = some '/' then a ++ b
  else a ++ "/" ++ b

/-- Existence state of the two files owned by one conversion: the temp raw
image (a boolean) and the final qcow2 file (`some size` when present). -/
structure FS where
  temp : Bool
  final : Option Nat
deriving DecidableEq

/-- Environment of one `create_vm_from_disk` run: stop-flag samples and exit
code for each stage's poll loop, and what the re-encode wrote. -/
structure PipeEnv where
  ddStops : List Bool
  ddExit : Int
  qemuStops : List Bool
  qemuExit : Int
  qemuWrites : Option Nat
deriving DecidableEq

/-- Outcome of `create_vm_from_disk`: the returned qcow2 path, the
`KeyboardInterrupt` raised on cancellation, a re-raised
`CalledProcessError`, or the `Exception` raised when the output file is
missing at verification. -/
inductive ConvResult where
  | ok (path : String)
  | cancelled
  | failed (code : Int)
  | outputMissing
deriving DecidableEq

/-- Result, final file state, progress events, and actions of one run. -/
structure ConvOut where
  result : ConvResult
  fs : FS
  events : List (Nat × String)
  actions : List Action
deriving DecidableEq

/-- State of the final path after `qemu-img convert` ran: what it wrote, or
whatever was there before if it never created the file. -/
def overwriteFinal (w : Option Nat) (old : Option Nat) : Option Nat :=
  match w with
  | some k => some k
  | none => old

/-- Translation of `create_vm_from_disk`.  Stage structure follows the
source: duplication poll loop (cancel: terminate, wait, remove temp if
present, raise; nonzero exit: remove temp if present, raise), re-encode poll
loop (cancel or nonzero exit: terminate/wait as applicable, remove both files
that exist, raise), unconditional temp removal, then verification by
existence of the final path. -/
def create_vm_from_disk (output_path vm_name : String) (env : PipeEnv) (fs0 : FS) : ConvOut :=
  let raw_image_path := pyJoin output_path (vm_name ++ "_temp.img")
  let qcow2_path := pyJoin output_path (vm_name ++ ".qcow2")
  let _ := raw_image_path
  let ev0 : List (Nat × String) := [(10, "Creating raw disk image...")]
  let fs1 : FS := { temp := true, final := fs0.final }
  match pollLoop env.ddStops with
  | some n =>
    { result := ConvResult.cancelled
      fs := { temp := false, final := fs1.final }
      events := ev0 ++ List.replicate n (50, "Copying disk data...")
      actions := [Action.terminate, Action.wait] ++ (if fs1.temp then [Action.rmTemp] else []) }
  | none =>
    let evDD := ev0 ++ List.replicate env.ddStops.length (50, "Copying disk data...")
    if env.ddExit ≠ 0 then
      { result := ConvResult.failed env.ddExit
        fs := { temp := false, final := fs1.final }
        events := evDD
        actions := if fs1.temp then [Action.rmTemp] else [] }
    else
      let fs2 : FS := { temp := true, final := overwriteFinal env.qemuWrites fs1.final }
      let ev1 := evDD ++ [(70, "Converting to qcow2 format...")]
      match pollLoop env.qemuStops with
      | some n =>
        { result := ConvResult.cancelled
          fs := { temp := false, final := none }
          events := ev1 ++ List.replicate n (85, "Compressing virtual machine...")
          actions := [Action.terminate, Action.wait]
            ++ (if fs2.temp then [Action.rmTemp] else [])
            ++ (if fs2.final.isSome then [Action.rmFinal] else []) }
      | none =>
        let ev2 := ev1 ++ List.replicate env.qemuStops.length (85, "Compressing virtual machine...")
        if env.qemuExit ≠ 0 then
          { result := ConvResult.failed env.qemuExit
            fs := { temp := false, final := none }
            events := ev2
            actions := (if fs2.temp then [Action.rmTemp] else [])
              ++ (if fs2.final.isSome then [Action.rmFinal] else []) }
        else
          let ev3 := ev2 ++ [(95, "Cleaning up...")]
          let fs3 : FS := { temp := false, final := fs2.final }
          if fs3.final.isSome then
            { result := ConvResult.ok qcow2_path
              fs := fs3
              events := ev3 ++ [(100, "Conversion completed successfully!")]
              actions := [Action.rmTemp] }
          else
            { result := ConvResult.outputMissing
              fs := fs3
              events := ev3
              actions := [Action.rmTemp] }

example :
    create_vm_from_disk "out" "vm" ⟨[false], 0, [false, false], 0, some 7⟩ ⟨false, none⟩ =
      { result := ConvResult.ok "out/vm.qcow2"
        fs := { temp := false, final := some 7 }
        events := [(10, "Creating raw disk image..."), (50, "Copying disk data..."),
                   (70, "Converting to qcow2 format..."),
                   (85, "Compressing virtual machine..."), (85, "Compressing virtual machine..."),
                   (95, "Cleaning up..."), (100, "Conversion completed successfully!")]
        actions := [Action.rmTemp] } := by decide

example :
    get_disk_list (CmdOutcome.succeeded "sda 500107862016 disk Samsung SSD 860\nsdb 1000204886016 disk\n")
        (CmdOutcome.succeeded "") =
      DisksResult.disks
        [{ device := "/dev/sda", size_bytes := 500107862016, model := "Samsung SSD 860" },
         { device := "/dev/sdb", size_bytes := 1000204886016, model := "Unknown" }] := by decide

example : get_base_disk "nvme0n1p1" = "nvme0n1" := by decide
example : get_base_disk "sda1" = "sda" := by decide
example : get_base_disk "nvme0n1" = "nvme0n1" := by decide
example : validate_vm_name "" = (false, msgEmpty) := by decide
example : validate_vm_name "a<b" = (false, msgInvalidChar '<') := by decide
example : validate_vm_name "CON" = (false, msgReserved "CON") := by decide
example : validate_vm_name "myvm" = (true, "Valid name") := by decide

/-! ### Lemmas about `validate_vm_name` -/

lemma contains_iff_mem_chars (l : List Char) (c : Char) : l.contains c = true ↔ c ∈ l := by
  simp [List.contains]

lemma ne_empty_of_mem_data {name : String} {c : Char} (h : c ∈ name.data) : name ≠ "" := by
  intro he
  subst he
  have hd : ("" : String).data = [] := rfl
  rw [hd] at h
  exact absurd h (List.not_mem_nil c)

lemma validate_vm_name_empty : validate_vm_name "" = (false, msgEmpty) := by decide

lemma validate_vm_name_invalid {name : String} (h : ∃ c ∈ invalid_chars, c ∈ name.data) :
    ∃ c ∈ invalid_chars, validate_vm_name name = (false, msgInvalidChar c) := by
  obtain ⟨c, hc, hmem⟩ := h
  have hne : name ≠ "" := ne_empty_of_mem_data hmem
  have hsome : (invalid_chars.find? (fun c => name.data.contains c)).isSome := by
    rw [List.find?_isSome]
    exact ⟨c, hc, (contains_iff_mem_chars _ _).mpr hmem⟩
  obtain ⟨c', hc'⟩ := Option.isSome_iff_exists.mp hsome
  refine ⟨c', List.mem_of_find?_eq_some hc', ?_⟩
  unfold validate_vm_name
  rw [if_neg hne, hc']

lemma validate_vm_name_long {name : String} (h100 : 100 < name.length)
    (hclean : ∀ c ∈ invalid_chars, c ∉ name.data) :
    validate_vm_name name = (false, msgTooLong) := by
  have hne : name ≠ "" := by
    intro he
    subst he
    exact absurd h100 (by decide)
  have hfind : invalid_chars.find? (fun c => name.data.contains c) = none := by
    rw [List.find?_eq_none]
    intro c hc hcontains
    exact hclean c hc ((contains_iff_mem_chars _ _).mp hcontains)
  unfold validate_vm_name
  rw [if_neg hne, hfind]
  simp [h100]

lemma inv_toLower : ∀ c ∈ invalid_chars, Char.toLower c = c := by decide

lemma reserved_no_invalid : ∀ w ∈ reserved_names, ∀ c ∈ invalid_chars, c ∉ w.data := by decide

lemma reserved_short : ∀ w ∈ reserved_names, w.length ≤ 100 := by decide

lemma validate_vm_name_reserved {name : String} (h : pyLowerStr name ∈ reserved_names) :
    validate_vm_name name = (false, msgReserved name) := by
  have hlen : name.length = (pyLowerStr name).length := by
    show name.data.length = (name.data.map Char.toLower).length
    rw [List.length_map]
  have hclean : ∀ c ∈ invalid_chars, c ∉ name.data := by
    intro c hc hmem
    have h1 : Char.toLower c ∈ name.data.map Char.toLower := List.mem_map_of_mem _ hmem
    rw [inv_toLower c hc] at h1
    have h2 : c ∈ (pyLowerStr name).data := by simpa [pyLowerStr] using h1
    exact reserved_no_invalid _ h c hc h2
  have hne : name ≠ "" := by
    intro he
    subst he
    revert h
    decide
  have hfind : invalid_chars.find? (fun c => name.data.contains c) = none := by
    rw [List.find?_eq_none]
    intro c hc hcontains
    exact hclean c hc ((contains_iff_mem_chars _ _).mp hcontains)
  have h100 : ¬name.length > 100 := by
    rw [hlen]
    have := reserved_short _ h
    omega
  unfold validate_vm_name
  rw [if_neg hne, hfind]
  simp [h100, h]

lemma validate_vm_name_ok {name : String} (hne : name ≠ "")
    (hclean : ∀ c ∈ invalid_chars, c ∉ name.data)
    (hlen : name.length ≤ 100)
    (hres : pyLowerStr name ∉ reserved_names) :
    validate_vm_name name = (true, "Valid name") := by
  have hfind : invalid_chars.find? (fun c => name.data.contains c) = none := by
    rw [List.find?_eq_none]
    intro c hc hcontains
    exact hclean c hc ((contains_iff_mem_chars _ _).mp hcontains)
  have h100 : ¬name.length > 100 := by omega
  unfold validate_vm_name
  rw [if_neg hne, hfind]
  simp [h100, hres]

set_option maxRecDepth 4096 in
lemma validate_a100 :
    validate_vm_name (String.mk (List.replicate 100 'a')) = (true, "Valid name") := by decide

lemma msgInvalidChar_ne_tooLong (c : Char) : msgInvalidChar c ≠ msgTooLong := by
  intro h
  have h1 := congrArg (fun s => s.data.length) h
  simp only [msgInvalidChar, msgTooLong, String.push, List.length_append, List.length_cons,
    List.length_nil] at h1
  revert h1
  decide

/-! ### Claim theorems C7, C8, C9 -/

/-- C7: `validate_vm_name` is a pure function that fails for the empty name,
fails with the invalid-character reason for every name containing one of
`<>:"/\|?*`, fails with the too-long reason for oversized names (with no
invalid character to report first, the checks being ordered), accepts a
100-character clean name, fails with the reserved reason for names
case-insensitively equal to a reserved device name, and succeeds for every
other name. -/
theorem C7_validate_vm_name_spec :
    validate_vm_name "" = (false, msgEmpty) ∧
    (∀ name : String, (∃ c ∈ invalid_chars, c ∈ name.data) →
      ∃ c ∈ invalid_chars, validate_vm_name name = (false, msgInvalidChar c)) ∧
    (∀ name : String, 100 < name.length → (∀ c ∈ invalid_chars, c ∉ name.data) →
      validate_vm_name name = (false, msgTooLong)) ∧
    validate_vm_name (String.mk (List.replicate 100 'a')) = (true, "Valid name") ∧
    (∀ name : String, pyLowerStr name ∈ reserved_names →
      validate_vm_name name = (false, msgReserved name)) ∧
    (∀ name : String, name ≠ "" → (∀ c ∈ invalid_chars, c ∉ name.data) →
      name.length ≤ 100 → pyLowerStr name ∉ reserved_names →
      validate_vm_name name = (true, "Valid name")) :=
  ⟨validate_vm_name_empty,
   fun _ h => validate_vm_name_invalid h,
   fun _ h1 h2 => validate_vm_name_long h1 h2,
   validate_a100,
   fun _ h => validate_vm_name_reserved h,
   fun _ h1 h2 h3 h4 => validate_vm_name_ok h1 h2 h3 h4⟩

set_option maxRecDepth 4096 in
/-- Witness for C7 at concrete names: an invalid character, a 101-character
name, a reserved name in upper case, and an ordinary valid name. -/
theorem C7_validate_vm_name_spec_witness :
    (∃ c ∈ invalid_chars, validate_vm_name "a<b" = (false, msgInvalidChar c)) ∧
    validate_vm_name (String.mk (List.replicate 101 'a')) = (false, msgTooLong) ∧
    validate_vm_name "CON" = (false, msgReserved "CON") ∧
    validate_vm_name "myvm" = (true, "Valid name") :=
  ⟨C7_validate_vm_name_spec.2.1 "a<b" ⟨'<', by decide, by decide⟩,
   C7_validate_vm_name_spec.2.2.1 _ (by decide) (by decide),
   C7_validate_vm_name_spec.2.2.2.2.1 "CON" (by decide),
   C7_validate_vm_name_spec.2.2.2.2.2 "myvm" (by decide) (by decide) (by decide) (by decide)⟩

/-- C8: `get_base_disk` maps the NVMe partition `nvme0n1p1` to `nvme0n1`, the
SCSI partition `sda1` to `sda`, and the base disk `nvme0n1` to itself. -/
theorem C8_get_base_disk :
    get_base_disk "nvme0n1p1" = "nvme0n1" ∧
    get_base_disk "sda1" = "sda" ∧
    get_base_disk "nvme0n1" = "nvme0n1" := by decide

/-- C9: the invalid-character check precedes the length check, so every name
longer than 100 characters that contains an invalid character reports the
invalid-character failure and not the too-long failure. -/
theorem C9_validate_vm_name_order (name : String) (_h100 : 100 < name.length)
    (h : ∃ c ∈ invalid_chars, c ∈ name.data) :
    (∃ c ∈ invalid_chars, validate_vm_name name = (false, msgInvalidChar c)) ∧
    validate_vm_name name ≠ (false, msgTooLong) := by
  refine ⟨validate_vm_name_invalid h, ?_⟩
  obtain ⟨c, _, heq⟩ := validate_vm_name_invalid h
  rw [heq]
  intro hcontra
  exact msgInvalidChar_ne_tooLong c (congrArg Prod.snd hcontra)

set_option maxRecDepth 4096 in
/-- Witness for C9: a 101-character name ending in an invalid character. -/
theorem C9_validate_vm_name_order_witness :
    (∃ c ∈ invalid_chars,
      validate_vm_name (String.mk (List.replicate 101 'a' ++ ['<'])) = (false, msgInvalidChar c)) ∧
    validate_vm_name (String.mk (List.replicate 101 'a' ++ ['<'])) ≠ (false, msgTooLong) :=
  C9_validate_vm_name_order _ (by decide) ⟨'<', by decide, by decide⟩

/-! ### Claim theorems C6 and C10 -/

/-- C6: with the directory created, `check_output_space` computes a required
size within rounding of `source_disk_size * compression_ratio * 1.1` (at most
the exact product, short of it by less than `21/10` bytes — two truncations),
and reports sufficient space exactly when the free bytes reported by the
directory-space query reach the requirement. -/
theorem C6_check_output_space (source_disk_size : Nat) (compression_ratio : ℚ)
    (hr : 0 ≤ compression_ratio) (queryOk : Bool) (total free : Nat) :
    ((required_space source_disk_size compression_ratio : ℚ) ≤
        (source_disk_size : ℚ) * compression_ratio * (11 / 10) ∧
      (source_disk_size : ℚ) * compression_ratio * (11 / 10) -
        (required_space source_disk_size compression_ratio : ℚ) < 21 / 10) ∧
    (check_output_space true queryOk total free source_disk_size compression_ratio = true ↔
      required_space source_disk_size compression_ratio ≤
        ((get_directory_space queryOk total free).free : ℤ)) := by
  have hs : (0 : ℚ) ≤ (source_disk_size : ℚ) := Nat.cast_nonneg _
  have hsr : (0 : ℚ) ≤ (source_disk_size : ℚ) * compression_ratio := mul_nonneg hs hr
  have hest : estimated_vm_size source_disk_size compression_ratio =
      ⌊(source_disk_size : ℚ) * compression_ratio⌋ := by
    rw [estimated_vm_size, truncInt, if_pos hsr]
  have hestq : (0 : ℚ) ≤ (estimated_vm_size source_disk_size compression_ratio : ℚ) := by
    rw [hest]
    exact_mod_cast Int.floor_nonneg.mpr hsr
  have hreq : required_space source_disk_size compression_ratio =
      ⌊(estimated_vm_size source_disk_size compression_ratio : ℚ) * (11 / 10)⌋ := by
    rw [required_space, truncInt, if_pos (mul_nonneg hestq (by norm_num))]
  constructor
  · have hfl1 : ((⌊(source_disk_size : ℚ) * compression_ratio⌋ : ℚ)) ≤
        (source_disk_size : ℚ) * compression_ratio := Int.floor_le _
    have hfl2 : (source_disk_size : ℚ) * compression_ratio - 1 <
        (⌊(source_disk_size : ℚ) * compression_ratio⌋ : ℚ) := Int.sub_one_lt_floor _
    have hfl3 : ((required_space source_disk_size compression_ratio : ℚ)) ≤
        (estimated_vm_size source_disk_size compression_ratio : ℚ) * (11 / 10) := by
      rw [hreq]
      exact_mod_cast Int.floor_le _
    have hfl4 : (estimated_vm_size source_disk_size compression_ratio : ℚ) * (11 / 10) - 1 <
        (required_space source_disk_size compression_ratio : ℚ) := by
      rw [hreq]
      exact_mod_cast Int.sub_one_lt_floor _
    have hup : (estimated_vm_size source_disk_size compression_ratio : ℚ) * (11 / 10) ≤
        (source_disk_size : ℚ) * compression_ratio * (11 / 10) := by
      apply mul_le_mul_of_nonneg_right _ (by norm_num)
      rw [hest]
      exact hfl1
    have hdown : ((source_disk_size : ℚ) * compression_ratio - 1) * (11 / 10) <
        (estimated_vm_size source_disk_size compression_ratio : ℚ) * (11 / 10) := by
      apply mul_lt_mul_of_pos_right _ (by norm_num)
      rw [hest]
      exact hfl2
    constructor
    · linarith
    · nlinarith
  · rw [check_output_space, if_pos rfl]
    exact decide_eq_true_iff

/-- Witness for C6 at the spec's end-to-end example: a 100,000,000-byte
source at the default ratio 1/2 against 200,000,000 free bytes. -/
theorem C6_check_output_space_witness :
    ((required_space 100000000 (1 / 2) : ℚ) ≤ (100000000 : ℚ) * (1 / 2) * (11 / 10) ∧
      (100000000 : ℚ) * (1 / 2) * (11 / 10) - (required_space 100000000 (1 / 2) : ℚ) < 21 / 10) ∧
    (check_output_space true true 300000000 200000000 100000000 (1 / 2) = true ↔
      required_space 100000000 (1 / 2) ≤ ((get_directory_space true 300000000 200000000).free : ℤ)) :=
  C6_check_output_space 100000000 (1 / 2) (by norm_num) true 300000000 200000000

/-- C10: whenever the truncated required space is zero (in particular for a
zero-size source, whatever the ratio), `check_output_space` reports enough
space no matter what the free-space query returned — including a failed query
reported as zero free bytes. -/
theorem C10_zero_required_space :
    (∀ compression_ratio : ℚ, required_space 0 compression_ratio = 0) ∧
    (∀ (queryOk : Bool) (total free source_disk_size : Nat) (compression_ratio : ℚ),
      required_space source_disk_size compression_ratio = 0 →
      check_output_space true queryOk total free source_disk_size compression_ratio = true) := by
  constructor
  · intro r
    simp [required_space, estimated_vm_size, truncInt]
  · intro queryOk total free size r h
    rw [check_output_space, if_pos rfl, decide_eq_true_iff, h]
    exact Int.natCast_nonneg _

/-- Witness for C10: a zero-size source with a failed free-space query (zero
free bytes reported) is still accepted. -/
theorem C10_zero_required_space_witness :
    required_space 0 (1 / 2) = 0 ∧
    check_output_space true false 0 0 0 (1 / 2) = true :=
  ⟨C10_zero_required_space.1 (1 / 2),
   C10_zero_required_space.2 false 0 0 0 (1 / 2) (C10_zero_required_space.1 (1 / 2))⟩

/-! ### Claim theorem C4 -/

/-- C4 (code behavior at the failing inputs): when the `lsblk` binary is
missing, `get_disk_list` does not return an empty list — the `sys.exit(2)`
inside `run_command` terminates the process (`SystemExit` bypasses every
handler in `get_disk_list`); a failed command likewise exits with code 1.
Unparsable output, by contrast, is caught and does produce `[]`. -/
theorem C4_get_disk_list_enumeration_errors :
    get_disk_list CmdOutcome.notFound (CmdOutcome.succeeded "") = DisksResult.exited 2 ∧
    get_disk_list (CmdOutcome.callFailed 1) (CmdOutcome.succeeded "") = DisksResult.exited 1 ∧
    get_disk_list (CmdOutcome.succeeded "sda notanumber")
      (CmdOutcome.succeeded "") = DisksResult.disks [] := by decide

/-! ### Lemmas about the poll loop and the conversion pipeline -/

lemma pollLoop_eq_none_iff (stops : List Bool) : pollLoop stops = none ↔ true ∉ stops := by
  induction stops with
  | nil => simp [pollLoop]
  | cons s rest ih =>
    cases s
    · simpa [pollLoop, Option.map_eq_none'] using ih
    · simp [pollLoop]

lemma pollLoop_isSome_of_mem {stops : List Bool} (h : true ∈ stops) :
    ∃ n, pollLoop stops = some n := by
  cases ho : pollLoop stops with
  | none => exact absurd h ((pollLoop_eq_none_iff stops).mp ho)
  | some n => exact ⟨n, rfl⟩

lemma pipeline_dd_cancel (output_path vm_name : String) (env : PipeEnv) (fs0 : FS)
    {n : Nat} (hdd : pollLoop env.ddStops = some n) :
    create_vm_from_disk output_path vm_name env fs0 =
      { result := ConvResult.cancelled
        fs := { temp := false, final := fs0.final }
        events := [(10, "Creating raw disk image...")] ++
          List.replicate n (50, "Copying disk data...")
        actions := [Action.terminate, Action.wait, Action.rmTemp] } := by
  simp [create_vm_from_disk, hdd]

lemma pipeline_dd_fail (output_path vm_name : String) (env : PipeEnv) (fs0 : FS)
    (hdd : pollLoop env.ddStops = none) (hde : env.ddExit ≠ 0) :
    create_vm_from_disk output_path vm_name env fs0 =
      { result := ConvResult.failed env.ddExit
        fs := { temp := false, final := fs0.final }
        events := [(10, "Creating raw disk image...")] ++
          List.replicate env.ddStops.length (50, "Copying disk data...")
        actions := [Action.rmTemp] } := by
  simp [create_vm_from_disk, hdd, hde]

lemma pipeline_qemu_cancel (output_path vm_name : String) (env : PipeEnv) (fs0 : FS)
    {n : Nat} (hdd : pollLoop env.ddStops = none) (hde : env.ddExit = 0)
    (hq : pollLoop env.qemuStops = some n) :
    create_vm_from_disk output_path vm_name env fs0 =
      { result := ConvResult.cancelled
        fs := { temp := false, final := none }
        events := ([(10, "Creating raw disk image...")] ++
          List.replicate env.ddStops.length (50, "Copying disk data...") ++
          [(70, "Converting to qcow2 format...")]) ++
          List.replicate n (85, "Compressing virtual machine...")
        actions := [Action.terminate, Action.wait, Action.rmTemp] ++
          (if (overwriteFinal env.qemuWrites fs0.final).isSome
            then [Action.rmFinal] else []) } := by
  simp [create_vm_from_disk, hdd, hde, hq]

lemma pipeline_qemu_fail (output_path vm_name : String) (env : PipeEnv) (fs0 : FS)
    (hdd : pollLoop env.ddStops = none) (hde : env.ddExit = 0)
    (hq : pollLoop env.qemuStops = none) (hqe : env.qemuExit ≠ 0) :
    create_vm_from_disk output_path vm_name env fs0 =
      { result := ConvResult.failed env.qemuExit
        fs := { temp := false, final := none }
        events := ([(10, "Creating raw disk image...")] ++
          List.replicate env.ddStops.length (50, "Copying disk data...") ++
          [(70, "Converting to qcow2 format...")]) ++
          List.replicate env.qemuStops.length (85, "Compressing virtual machine...")
        actions := [Action.rmTemp] ++
          (if (overwriteFinal env.qemuWrites fs0.final).isSome
            then [Action.rmFinal] else []) } := by
  simp [create_vm_from_disk, hdd, hde, hq, hqe]

lemma pipeline_verify_ok (output_path vm_name : String) (env : PipeEnv) (fs0 : FS)
    (hdd : pollLoop env.ddStops = none) (hde : env.ddExit = 0)
    (hq : pollLoop env.qemuStops = none) (hqe : env.qemuExit = 0)
    (hfin : (overwriteFinal env.qemuWrites fs0.final).isSome = true) :
    create_vm_from_disk output_path vm_name env fs0 =
      { result := ConvResult.ok (pyJoin output_path (vm_name ++ ".qcow2"))
        fs := { temp := false, final := overwriteFinal env.qemuWrites fs0.final }
        events := ([(10, "Creating raw disk image...")] ++
          List.replicate env.ddStops.length (50, "Copying disk data...") ++
          [(70, "Converting to qcow2 format...")]) ++
          List.replicate env.qemuStops.length (85, "Compressing virtual machine...") ++
          [(95, "Cleaning up...")] ++ [(100, "Conversion completed successfully!")]
        actions := [Action.rmTemp] } := by
  simp [create_vm_from_disk, hdd, hde, hq, hqe, hfin]

lemma pipeline_verify_missing (output_path vm_name : String) (env : PipeEnv) (fs0 : FS)
    (hdd : pollLoop env.ddStops = none) (hde : env.ddExit = 0)
    (hq : pollLoop env.qemuStops = none) (hqe : env.qemuExit = 0)
    (hfin : overwriteFinal env.qemuWrites fs0.final = none) :
    create_vm_from_disk output_path vm_name env fs0 =
      { result := ConvResult.outputMissing
        fs := { temp := false, final := none }
        events := ([(10, "Creating raw disk image...")] ++
          List.replicate env.ddStops.length (50, "Copying disk data...") ++
          [(70, "Converting to qcow2 format...")]) ++
          List.replicate env.qemuStops.length (85, "Compressing virtual machine...") ++
          [(95, "Cleaning up...")]
        actions := [Action.rmTemp] } := by
  simp [create_vm_from_disk, hdd, hde, hq, hqe, hfin]

lemma runner_cancelled {stops : List Bool} (exitCode : Int) (out : String) (h : true ∈ stops) :
    (run_command_with_progress stops exitCode out).1 = RunResult.cancelled ∧
    ∃ n, (run_command_with_progress stops exitCode out).2 =
      List.replicate n Action.progressTick ++ [Action.terminate, Action.wait] := by
  induction stops with
  | nil => simp at h
  | cons s rest ih =>
    cases s
    · have hrest : true ∈ rest := by simpa using h
      obtain ⟨h1, n, h2⟩ := ih hrest
      refine ⟨by simpa [run_command_with_progress] using h1, n + 1, ?_⟩
      simp [run_command_with_progress, List.replicate_succ, h2]
    · exact ⟨by simp [run_command_with_progress], 0, by simp [run_command_with_progress]⟩

lemma pairwise_le_replicate (a n : Nat) :
    List.Pairwise (fun x y => x ≤ y) (List.replicate n a) := by
  induction n with
  | zero => simp
  | succ m ih =>
    rw [List.replicate_succ]
    exact List.pairwise_cons.mpr ⟨fun b hb => le_of_eq (List.eq_of_mem_replicate hb).symm, ih⟩

lemma pairwise_le_replicate_append (a : Nat) (n : Nat) (l : List Nat)
    (hl : List.Pairwise (fun x y => x ≤ y) l) (ha : ∀ x ∈ l, a ≤ x) :
    List.Pairwise (fun x y => x ≤ y) (List.replicate n a ++ l) := by
  induction n with
  | zero => simpa
  | succ m ih =>
    rw [List.replicate_succ, List.cons_append]
    refine List.pairwise_cons.mpr ⟨?_, ih⟩
    intro b hb
    rcases List.mem_append.mp hb with hb | hb
    · exact le_of_eq (List.eq_of_mem_replicate hb).symm
    · exact ha b hb

lemma pairwise_le_ddShape (n : Nat) :
    List.Pairwise (fun x y => x ≤ y) (10 :: List.replicate n 50) := by
  refine List.pairwise_cons.mpr ⟨?_, pairwise_le_replicate 50 n⟩
  intro b hb
  rw [List.eq_of_mem_replicate hb]
  omega

lemma mem_ddShape_le (n : Nat) : ∀ p ∈ 10 :: List.replicate n 50, p ≤ 100 := by
  intro p hp
  rcases List.mem_cons.mp hp with rfl | hp
  · omega
  · rw [List.eq_of_mem_replicate hp]
    omega

lemma pairwise_le_mainShape (n m : Nat) (t : List Nat)
    (ht : List.Pairwise (fun x y => x ≤ y) t) (h85 : ∀ x ∈ t, 85 ≤ x) :
    List.Pairwise (fun x y => x ≤ y)
      (10 :: (List.replicate n 50 ++ 70 :: (List.replicate m 85 ++ t))) := by
  have hinner : List.Pairwise (fun x y => x ≤ y) (List.replicate m 85 ++ t) :=
    pairwise_le_replicate_append 85 m t ht h85
  have h70 : List.Pairwise (fun x y => x ≤ y) (70 :: (List.replicate m 85 ++ t)) := by
    refine List.pairwise_cons.mpr ⟨?_, hinner⟩
    intro b hb
    rcases List.mem_append.mp hb with hb | hb
    · rw [List.eq_of_mem_replicate hb]
      omega
    · have := h85 b hb
      omega
  have houter : List.Pairwise (fun x y => x ≤ y)
      (List.replicate n 50 ++ 70 :: (List.replicate m 85 ++ t)) := by
    refine pairwise_le_replicate_append 50 n _ h70 ?_
    intro b hb
    rcases List.mem_cons.mp hb with rfl | hb
    · omega
    rcases List.mem_append.mp hb with hb | hb
    · rw [List.eq_of_mem_replicate hb]
      omega
    · have := h85 b hb
      omega
  refine List.pairwise_cons.mpr ⟨?_, houter⟩
  intro b hb
  rcases List.mem_append.mp hb with hb | hb
  · rw [List.eq_of_mem_replicate hb]
    omega
  rcases List.mem_cons.mp hb with rfl | hb
  · omega
  rcases List.mem_append.mp hb with hb | hb
  · rw [List.eq_of_mem_replicate hb]
    omega
  · have := h85 b hb
    omega

lemma mem_mainShape_le (n m : Nat) (t : List Nat) (h : ∀ x ∈ t, x ≤ 100) :
    ∀ p ∈ 10 :: (List.replicate n 50 ++ 70 :: (List.replicate m 85 ++ t)), p ≤ 100 := by
  intro p hp
  rcases List.mem_cons.mp hp with rfl | hp
  · omega
  rcases List.mem_append.mp hp with hp | hp
  · rw [List.eq_of_mem_replicate hp]
    omega
  rcases List.mem_cons.mp hp with rfl | hp
  · omega
  rcases List.mem_append.mp hp with hp | hp
  · rw [List.eq_of_mem_replicate hp]
    omega
  · exact h p hp

lemma getLast?_mainShape (n m : Nat) :
    (10 :: (List.replicate n 50 ++ 70 :: (List.replicate m 85 ++ [95, 100]))).getLast? =
      some 100 := by
  rw [List.getLast?_eq_head?_reverse]
  simp

/-! ### Claim theorems C1, C2, C3, C5 -/

/-- C1 counterexample: with a file already present at the final path (for
example the artifact of an earlier successful conversion of the same name),
a duplication-stage failure removes only the temp raw file — the dd-failure
cleanup (utils.py lines 259-263) never touches the final path — so the final
file still exists when `create_vm_from_disk` returns, contradicting the claim
as stated. -/
theorem C1_counterexample :
    (create_vm_from_disk "out" "vm" ⟨[], 1, [], 0, none⟩ ⟨false, some 5⟩).result =
      ConvResult.failed 1 ∧
    (create_vm_from_disk "out" "vm" ⟨[], 1, [], 0, none⟩ ⟨false, some 5⟩).fs.final = some 5 := by
  decide

/-- C1 (amended): provided no file exists at the final qcow2 path when the
call starts, every run of `create_vm_from_disk` that does not return success
(cancellation at either stage, a nonzero exit of either tool, or the
verification failure) ends with neither the temp raw file nor the final file
existing. -/
theorem C1_failure_leaves_no_artifacts (output_path vm_name : String) (env : PipeEnv)
    (fs0 : FS) (h0 : fs0.final = none)
    (hfail : ∀ p, (create_vm_from_disk output_path vm_name env fs0).result ≠ ConvResult.ok p) :
    (create_vm_from_disk output_path vm_name env fs0).fs.temp = false ∧
    (create_vm_from_disk output_path vm_name env fs0).fs.final = none := by
  cases hdd : pollLoop env.ddStops with
  | some n =>
    rw [pipeline_dd_cancel output_path vm_name env fs0 hdd]
    exact ⟨rfl, h0⟩
  | none =>
    by_cases hde : env.ddExit = 0
    · cases hq : pollLoop env.qemuStops with
      | some n =>
        rw [pipeline_qemu_cancel output_path vm_name env fs0 hdd hde hq]
        exact ⟨rfl, rfl⟩
      | none =>
        by_cases hqe : env.qemuExit = 0
        · cases hfin : overwriteFinal env.qemuWrites fs0.final with
          | some k =>
            have hok := hfail (pyJoin output_path (vm_name ++ ".qcow2"))
            rw [pipeline_verify_ok output_path vm_name env fs0 hdd hde hq hqe
              (by rw [hfin]; rfl)] at hok
            simp at hok
          | none =>
            rw [pipeline_verify_missing output_path vm_name env fs0 hdd hde hq hqe hfin]
            exact ⟨rfl, rfl⟩
        · rw [pipeline_qemu_fail output_path vm_name env fs0 hdd hde hq hqe]
          exact ⟨rfl, rfl⟩
    · rw [pipeline_dd_fail output_path vm_name env fs0 hdd hde]
      exact ⟨rfl, h0⟩

/-- Witness for the amended C1: cancellation at the first duplication poll
tick, starting from a clean output directory. -/
theorem C1_failure_leaves_no_artifacts_witness :
    (create_vm_from_disk "out" "vm" ⟨[true], 0, [], 0, none⟩ ⟨false, none⟩).fs.temp = false ∧
    (create_vm_from_disk "out" "vm" ⟨[true], 0, [], 0, none⟩ ⟨false, none⟩).fs.final = none :=
  C1_failure_leaves_no_artifacts "out" "vm" ⟨[true], 0, [], 0, none⟩ ⟨false, none⟩ rfl
    (by
      intro p h
      rw [pipeline_dd_cancel "out" "vm" ⟨[true], 0, [], 0, none⟩ ⟨false, none⟩ rfl] at h
      simp at h)

/-- C2 counterexample: the re-encode exits with status zero having written a
zero-byte file at the final path; verification (utils.py line 317) checks
only `os.path.exists`, so the pipeline returns success — the claim requires
an output-missing failure for an empty final file. -/
theorem C2_counterexample :
    (create_vm_from_disk "out" "vm" ⟨[], 0, [], 0, some 0⟩ ⟨false, none⟩).result =
      ConvResult.ok "out/vm.qcow2" ∧
    (create_vm_from_disk "out" "vm" ⟨[], 0, [], 0, some 0⟩ ⟨false, none⟩).fs.final = some 0 := by
  decide

/-- C2 (amended): after both stages complete with status zero, the pipeline
fails with the output-missing error exactly when no file exists at the final
path — even though the external tool reported success — and returns the final
path exactly when the file exists; the file's size is read only for logging
and emptiness is not checked. -/
theorem C2_verify_existence_only (output_path vm_name : String) (env : PipeEnv) (fs0 : FS)
    (hdd : pollLoop env.ddStops = none) (hde : env.ddExit = 0)
    (hq : pollLoop env.qemuStops = none) (hqe : env.qemuExit = 0) :
    ((create_vm_from_disk output_path vm_name env fs0).result = ConvResult.outputMissing ↔
      overwriteFinal env.qemuWrites fs0.final = none) ∧
    ((create_vm_from_disk output_path vm_name env fs0).result =
        ConvResult.ok (pyJoin output_path (vm_name ++ ".qcow2")) ↔
      (overwriteFinal env.qemuWrites fs0.final).isSome = true) := by
  cases hfin : overwriteFinal env.qemuWrites fs0.final with
  | some k =>
    rw [pipeline_verify_ok output_path vm_name env fs0 hdd hde hq hqe (by rw [hfin]; rfl)]
    simp
  | none =>
    rw [pipeline_verify_missing output_path vm_name env fs0 hdd hde hq hqe hfin]
    simp

/-- Witness for the amended C2: both tools exit zero but nothing was written
to the final path, and the run ends in the output-missing failure. -/
theorem C2_verify_existence_only_witness :
    (create_vm_from_disk "out" "vm" ⟨[], 0, [], 0, none⟩ ⟨false, none⟩).result =
      ConvResult.outputMissing :=
  (C2_verify_existence_only "out" "vm" ⟨[], 0, [], 0, none⟩ ⟨false, none⟩
    rfl rfl rfl rfl).1.mpr rfl

/-- C3: whenever the stop flag is observed true at a poll tick while the
supervised process is alive, `run_command_with_progress` terminates the
process, waits for it, and raises the cancellation signal; the duplication
stage of `create_vm_from_disk` additionally removes the temp raw file; the
re-encode stage removes the temp raw file and any file at the final path;
all three report cancellation to the caller. -/
theorem C3_cancellation_cleanup :
    (∀ (stops : List Bool) (exitCode : Int) (out : String), true ∈ stops →
      (run_command_with_progress stops exitCode out).1 = RunResult.cancelled ∧
      ∃ n, (run_command_with_progress stops exitCode out).2 =
        List.replicate n Action.progressTick ++ [Action.terminate, Action.wait]) ∧
    (∀ (output_path vm_name : String) (env : PipeEnv) (fs0 : FS), true ∈ env.ddStops →
      (create_vm_from_disk output_path vm_name env fs0).result = ConvResult.cancelled ∧
      (create_vm_from_disk output_path vm_name env fs0).fs.temp = false ∧
      (create_vm_from_disk output_path vm_name env fs0).actions =
        [Action.terminate, Action.wait, Action.rmTemp]) ∧
    (∀ (output_path vm_name : String) (env : PipeEnv) (fs0 : FS),
      true ∉ env.ddStops → env.ddExit = 0 → true ∈ env.qemuStops →
      (create_vm_from_disk output_path vm_name env fs0).result = ConvResult.cancelled ∧
      (create_vm_from_disk output_path vm_name env fs0).fs.temp = false ∧
      (create_vm_from_disk output_path vm_name env fs0).fs.final = none ∧
      (create_vm_from_disk output_path vm_name env fs0).actions =
        [Action.terminate, Action.wait, Action.rmTemp] ++
          (if (overwriteFinal env.qemuWrites fs0.final).isSome
            then [Action.rmFinal] else [])) := by
  refine ⟨fun stops e o h => runner_cancelled e o h, ?_, ?_⟩
  · intro output_path vm_name env fs0 h
    obtain ⟨n, hdd⟩ := pollLoop_isSome_of_mem h
    rw [pipeline_dd_cancel output_path vm_name env fs0 hdd]
    exact ⟨rfl, rfl, rfl⟩
  · intro output_path vm_name env fs0 hddmem hde hqmem
    have hdd : pollLoop env.ddStops = none := (pollLoop_eq_none_iff _).mpr hddmem
    obtain ⟨n, hq⟩ := pollLoop_isSome_of_mem hqmem
    rw [pipeline_qemu_cancel output_path vm_name env fs0 hdd hde hq]
    exact ⟨rfl, rfl, rfl, rfl⟩

/-- Witness for C3: cancellation at the first poll tick of (separately) the
bare runner, the duplication stage, and the re-encode stage. -/
theorem C3_cancellation_cleanup_witness :
    ((run_command_with_progress [true] 0 "").1 = RunResult.cancelled ∧
      ∃ n, (run_command_with_progress [true] 0 "").2 =
        List.replicate n Action.progressTick ++ [Action.terminate, Action.wait]) ∧
    ((create_vm_from_disk "out" "vm" ⟨[true], 0, [], 0, none⟩ ⟨false, none⟩).result =
        ConvResult.cancelled ∧
      (create_vm_from_disk "out" "vm" ⟨[true], 0, [], 0, none⟩ ⟨false, none⟩).fs.temp = false ∧
      (create_vm_from_disk "out" "vm" ⟨[true], 0, [], 0, none⟩ ⟨false, none⟩).actions =
        [Action.terminate, Action.wait, Action.rmTemp]) ∧
    ((create_vm_from_disk "out" "vm" ⟨[], 0, [true], 0, some 3⟩ ⟨false, none⟩).result =
        ConvResult.cancelled ∧
      (create_vm_from_disk "out" "vm" ⟨[], 0, [true], 0, some 3⟩ ⟨false, none⟩).fs.temp = false ∧
      (create_vm_from_disk "out" "vm" ⟨[], 0, [true], 0, some 3⟩ ⟨false, none⟩).fs.final = none ∧
      (create_vm_from_disk "out" "vm" ⟨[], 0, [true], 0, some 3⟩ ⟨false, none⟩).actions =
        [Action.terminate, Action.wait, Action.rmTemp] ++
          (if (overwriteFinal (some 3) none).isSome then [Action.rmFinal] else [])) :=
  ⟨C3_cancellation_cleanup.1 [true] 0 "" (by decide),
   C3_cancellation_cleanup.2.1 "out" "vm" ⟨[true], 0, [], 0, none⟩ ⟨false, none⟩ (by decide),
   C3_cancellation_cleanup.2.2 "out" "vm" ⟨[], 0, [true], 0, some 3⟩ ⟨false, none⟩
     (by decide) rfl (by decide)⟩

/-- C5: in every run of `create_vm_from_disk` the percentages passed to the
progress callback form a monotonically non-decreasing sequence bounded by 100
(they are naturals, hence at least 0), and a run that returns success reports
100 last. -/
theorem C5_progress_monotone (output_path vm_name : String) (env : PipeEnv) (fs0 : FS) :
    List.Pairwise (fun x y => x ≤ y)
      ((create_vm_from_disk output_path vm_name env fs0).events.map Prod.fst) ∧
    (∀ p ∈ (create_vm_from_disk output_path vm_name env fs0).events.map Prod.fst, p ≤ 100) ∧
    (∀ q, (create_vm_from_disk output_path vm_name env fs0).result = ConvResult.ok q →
      ((create_vm_from_disk output_path vm_name env fs0).events.map Prod.fst).getLast? =
        some 100) := by
  cases hdd : pollLoop env.ddStops with
  | some n =>
    rw [pipeline_dd_cancel output_path vm_name env fs0 hdd]
    refine ⟨?_, ?_, ?_⟩
    · simpa using pairwise_le_ddShape n
    · simpa using mem_ddShape_le n
    · intro q hq
      simp at hq
  | none =>
    by_cases hde : env.ddExit = 0
    · cases hq : pollLoop env.qemuStops with
      | some n =>
        rw [pipeline_qemu_cancel output_path vm_name env fs0 hdd hde hq]
        refine ⟨?_, ?_, ?_⟩
        · simpa using pairwise_le_mainShape env.ddStops.length n [] (by simp) (by simp)
        · simpa using mem_mainShape_le env.ddStops.length n [] (by simp)
        · intro q hcq
          simp at hcq
      | none =>
        by_cases hqe : env.qemuExit = 0
        · cases hfin : overwriteFinal env.qemuWrites fs0.final with
          | some k =>
            rw [pipeline_verify_ok output_path vm_name env fs0 hdd hde hq hqe
              (by rw [hfin]; rfl)]
            refine ⟨?_, ?_, ?_⟩
            · simpa using pairwise_le_mainShape env.ddStops.length env.qemuStops.length
                [95, 100] (by decide) (by decide)
            · simpa using mem_mainShape_le env.ddStops.length env.qemuStops.length
                [95, 100] (by decide)
            · intro q _
              simpa using getLast?_mainShape env.ddStops.length env.qemuStops.length
          | none =>
            rw [pipeline_verify_missing output_path vm_name env fs0 hdd hde hq hqe hfin]
            refine ⟨?_, ?_, ?_⟩
            · simpa using pairwise_le_mainShape env.ddStops.length env.qemuStops.length
                [95] (by decide) (by decide)
            · simpa using mem_mainShape_le env.ddStops.length env.qemuStops.length
                [95] (by decide)
            · intro q hcq
              simp at hcq
        · rw [pipeline_qemu_fail output_path vm_name env fs0 hdd hde hq hqe]
          refine ⟨?_, ?_, ?_⟩
          · simpa using pairwise_le_mainShape env.ddStops.length env.qemuStops.length
              [] (by simp) (by simp)
          · simpa using mem_mainShape_le env.ddStops.length env.qemuStops.length [] (by simp)
          · intro q hcq
            simp at hcq
    · rw [pipeline_dd_fail output_path vm_name env fs0 hdd hde]
      refine ⟨?_, ?_, ?_⟩
      · simpa using pairwise_le_ddShape env.ddStops.length
      · simpa using mem_ddShape_le env.ddStops.length
      · intro q hcq
        simp at hcq

/-- Witness for C5 on a successful run with one poll tick per stage: events
10, 50, 70, 85, 95, 100, ending at 100. -/
theorem C5_progress_monotone_witness :
    List.Pairwise (fun x y => x ≤ y)
      ((create_vm_from_disk "out" "vm" ⟨[false], 0, [false], 0, some 1⟩
        ⟨false, none⟩).events.map Prod.fst) ∧
    (∀ p ∈ (create_vm_from_disk "out" "vm" ⟨[false], 0, [false], 0, some 1⟩
        ⟨false, none⟩).events.map Prod.fst, p ≤ 100) ∧
    ((create_vm_from_disk "out" "vm" ⟨[false], 0, [false], 0, some 1⟩
        ⟨false, none⟩).events.map Prod.fst).getLast? = some 100 :=
  ⟨(C5_progress_monotone "out" "vm" ⟨[false], 0, [false], 0, some 1⟩ ⟨false, none⟩).1,
   (C5_progress_monotone "out" "vm" ⟨[false], 0, [false], 0, some 1⟩ ⟨false, none⟩).2.1,
   (C5_progress_monotone "out" "vm" ⟨[false], 0, [false], 0, some 1⟩ ⟨false, none⟩).2.2
     "out/vm.qcow2" (by decide)⟩

end Disk2qcow2
